import Mathlib

/-
  Shallow embedding of `src/src/movie_tracker/movie_tracker.py`:
  the `Media`/`Movie` entity classes and the `MovieLibrary` catalog,
  together with its pandas-based CSV load/save.

  Modelling conventions:
  * Python `float` ratings are modelled as exact rationals (`ℚ`); the spec's
    round-trip claim only asks for equality up to floating-point tolerance,
    which exact rationals satisfy.
  * pandas reads an empty CSV cell as the float value NaN.  NaN is truthy in
    Python and is not a string; `PyStr.nanV` models that value where the code
    stores it into a string-typed field (`title`, `genre`).
  * Raising a Python exception is modelled with `Except String`; the error
    string mirrors the exception message.
-/

namespace MovieTracker

/-- View an `Except` value as a `Sum`, to transport decidable equality. -/
def exceptToSum : Except ε α → ε ⊕ α
  | .error e => .inl e
  | .ok a => .inr a

theorem exceptToSum_inj {a b : Except ε α} (h : exceptToSum a = exceptToSum b) :
    a = b := by
  cases a <;> cases b <;> simp [exceptToSum] at h <;> simp [h]

instance {ε α : Type} [DecidableEq ε] [DecidableEq α] : DecidableEq (Except ε α) :=
  fun a b =>
    decidable_of_iff (exceptToSum a = exceptToSum b)
      ⟨exceptToSum_inj, fun h => by rw [h]⟩

/-- A Python value occupying a string-typed slot: either a real string or the
float NaN that pandas produces for an empty CSV cell.  `nanV` is truthy in
Python (`not nan` is `False`) and has no `.lower()` method. -/
inductive PyStr where
  | nanV  : PyStr
  | strV  : String → PyStr
deriving DecidableEq, Repr

/-- Python truthiness test (`not value`): only the empty string is falsy here;
NaN is truthy. -/
def PyStr.falsy : PyStr → Bool
  | .nanV => false
  | .strV s => s.isEmpty

/-- Python `str.lower()`, modelled character by character (for the ASCII
titles this program compares, Python's and this lowercasing agree). -/
def lowerString (s : String) : String :=
  String.mk (s.data.map Char.toLower)

/-- `value.lower()` for values that are actual strings; calling `.lower()` on
NaN raises `AttributeError` in Python, so callers guard with a nanV check and
this total version is only consulted when the value is a string. -/
def PyStr.lowerTotal : PyStr → String
  | .nanV => ""
  | .strV s => lowerString s

/-- The `Movie` entity: `title`/`year` live in the `Media` base class, the
rest in `Movie`.  Fields mirror the private attributes
`_Media__title`, `_Media__year`, `_Movie__genre`, `_Movie__watched`,
`_Movie__rating`. -/
structure Movie where
  title   : PyStr
  year    : Int
  genre   : PyStr
  watched : Bool
  rating  : Option ℚ
deriving DecidableEq, Repr

/-- The `Media` title setter: `if not value: raise ValueError("Title cannot be
empty.")`, else store the value. -/
def Media.titleCheck (v : PyStr) : Except String PyStr :=
  if v.falsy then Except.error "Title cannot be empty." else Except.ok v

/-- `Movie.__init__(title, year, genre, watched, rating)`.  `super().__init__`
assigns `self.title`/`self.year` through the property setters (so the title is
validated and year stored unchecked), but `genre`, `watched` and `rating` are
assigned DIRECTLY to the name-mangled private attributes `self.__genre`,
`self.__watched`, `self.__rating` — the `genre`/`rating` property setters are
NOT invoked, so no genre coercion and no rating range check happen here. -/
def Movie.init (title : PyStr) (year : Int) (genre : PyStr) (watched : Bool)
    (rating : Option ℚ) : Except String Movie :=
  match Media.titleCheck title with
  | .error e => .error e
  | .ok t => .ok ⟨t, year, genre, watched, rating⟩

/-- Assignment `movie.title = v` through the `Media.title` property setter. -/
def Movie.setTitle (m : Movie) (v : PyStr) : Except String Movie :=
  match Media.titleCheck v with
  | .error e => .error e
  | .ok t => .ok { m with title := t }

/-- Assignment `movie.genre = v` through the `Movie.genre` property setter:
`self.__genre = value or "Unknown"`; a falsy value (the empty string) is
replaced by the literal string "Unknown". -/
def Movie.setGenre (m : Movie) (v : PyStr) : Movie :=
  { m with genre := if v.falsy then PyStr.strV "Unknown" else v }

/-- Assignment `movie.watched = v` through the setter: `bool(value)`. -/
def Movie.setWatched (m : Movie) (b : Bool) : Movie :=
  { m with watched := b }

/-- Assignment `movie.rating = v` through the `Movie.rating` property setter:
a non-None value outside `[0, 10]` raises `ValueError` and the attribute is
not assigned; `None` is always accepted. -/
def Movie.setRating (m : Movie) (v : Option ℚ) : Except String Movie :=
  match v with
  | none => .ok { m with rating := none }
  | some r =>
    if 0 ≤ r ∧ r ≤ 10 then .ok { m with rating := some r }
    else .error "Rating must be between 0 and 10."

/-- The `MovieLibrary` catalog: the main list `self.__movies` plus the derived
list `self.__unwatched_movies`. -/
structure MovieLibrary where
  movies : List Movie
  unwatched_movies : List Movie
deriving DecidableEq, Repr

/-- `MovieLibrary.__init__`: both lists start empty. -/
def MovieLibrary.init : MovieLibrary := ⟨[], []⟩

/-- `MovieLibrary.__build_unwatched_list`:
`[m for m in self.__movies if not m.watched]`. -/
def buildUnwatchedList (ms : List Movie) : List Movie :=
  ms.filter (fun m => !m.watched)

/-- `MovieLibrary.add_movie`: append to the main list, then rebuild the
unwatched list. -/
def MovieLibrary.add_movie (lib : MovieLibrary) (m : Movie) : MovieLibrary :=
  ⟨lib.movies ++ [m], buildUnwatchedList (lib.movies ++ [m])⟩

/-- The comparison `m.title.lower() == title_to_delete.lower()`. -/
def titleMatches (t : String) (m : Movie) : Bool :=
  PyStr.lowerTotal m.title == lowerString t

/-- The predicate kept by `delete_movie_by_title`'s list comprehension:
`m.title.lower() != title_to_delete.lower()`. -/
def keepsTitle (t : String) (m : Movie) : Bool :=
  !(titleMatches t m)

/-- `MovieLibrary.delete_movie_by_title`: keep the movies whose lowercased
title differs from the lowercased argument, rebuild the unwatched list, and
return `before_count - after_count`.  If any stored title is the NaN value
(possible only via a CSV row with an empty Title cell), `m.title.lower()`
raises `AttributeError` before the list is reassigned, leaving the library
unchanged; that is the `error` branch. -/
def MovieLibrary.delete_movie_by_title (lib : MovieLibrary) (t : String) :
    Except String (MovieLibrary × Nat) :=
  if lib.movies.all (fun m => !(m.title == PyStr.nanV)) then
    let ms := lib.movies.filter (keepsTitle t)
    .ok (⟨ms, buildUnwatchedList ms⟩, lib.movies.length - ms.length)
  else
    .error "AttributeError: float object has no attribute lower"

/-- The test in `ensure_valid_ratings`:
`movie.rating is not None and (movie.rating < 0 or movie.rating > 10)`. -/
def badRating : Option ℚ → Bool
  | none => false
  | some r => decide (r < 0) || decide (r > 10)

/-- `MovieLibrary.ensure_valid_ratings`: the while loop walks the main list in
order and assigns `movie.rating = None` (through the rating setter, which
accepts None) to every movie whose rating is out of band.  The unwatched list
is not rebuilt (rating changes cannot affect watched status). -/
def MovieLibrary.ensure_valid_ratings (lib : MovieLibrary) : MovieLibrary :=
  { lib with
    movies := lib.movies.map
      (fun m => if badRating m.rating then { m with rating := none } else m) }

/-
  CSV layer.  A file is a list of rows; each row field is `none` when the
  column is absent from the file (then `row.get(col, default)` yields the
  default) and `some cell` when the column is present.  A cell records what
  `pd.read_csv` produces for it: `emptyC` for an empty cell (read as NaN),
  a typed value for a cell pandas parses as that type, and `badC` for text
  that does not parse as the number the loader then demands.
-/

/-- A cell of a text column (`Title`, `Genre`): empty cells are read as NaN. -/
inductive TCell where
  | emptyC : TCell
  | strC   : String → TCell
deriving DecidableEq, Repr

/-- A cell of the `Year` column: empty (NaN), an integer, or unparseable
text. -/
inductive YCell where
  | emptyC : YCell
  | intC   : Int → YCell
  | badC   : String → YCell
deriving DecidableEq, Repr

/-- A cell of the `Watched` column: empty (NaN) or a boolean literal. -/
inductive WCell where
  | emptyC : WCell
  | boolC  : Bool → WCell
deriving DecidableEq, Repr

/-- A cell of the `Rating` column: empty (NaN), a decimal number, or
unparseable text. -/
inductive RCell where
  | emptyC : RCell
  | ratC   : ℚ → RCell
  | badC   : String → RCell
deriving DecidableEq, Repr

/-- One CSV row as seen through `df.iterrows()`. -/
structure Row where
  titleCell   : Option TCell
  yearCell    : Option YCell
  genreCell   : Option TCell
  watchedCell : Option WCell
  ratingCell  : Option RCell
deriving DecidableEq, Repr

/-- `row.get("Title", "")` (and identically for `Genre`): the default empty
string when the column is absent, NaN for an empty cell, else the text. -/
def parseText : Option TCell → PyStr
  | none => PyStr.strV ""
  | some .emptyC => PyStr.nanV
  | some (.strC s) => PyStr.strV s

/-- `int(row.get("Year", 2000))`: defaults to 2000 only when the `Year`
column is absent; an empty cell is NaN and `int(nan)` raises `ValueError`,
and unparseable text raises `ValueError` from `int(...)`.  Neither exception
is caught by the per-row `try`, which wraps only the `Movie` construction. -/
def parseYearCell : Option YCell → Except String Int
  | none => .ok 2000
  | some .emptyC => .error "ValueError: cannot convert float NaN to integer"
  | some (.intC z) => .ok z
  | some (.badC s) => .error ("ValueError: invalid literal for int: " ++ s)

/-- `bool(row.get("Watched", False))`: absent column gives the default False;
an empty cell is NaN and `bool(nan)` is True; a boolean cell is itself. -/
def parseWatchedCell : Option WCell → Bool
  | none => false
  | some .emptyC => true
  | some (.boolC b) => b

/-- `rating = row.get("Rating", None); None if pd.isnull(rating) else
float(rating)`: absent column or empty cell give None; a numeric cell gives
its value; unparseable text raises `ValueError` from `float(...)`, uncaught. -/
def parseRatingCell : Option RCell → Except String (Option ℚ)
  | none => .ok none
  | some .emptyC => .ok none
  | some (.ratC q) => .ok (some q)
  | some (.badC s) => .error ("ValueError: could not convert string to float: " ++ s)

/-- The row loop of `load_from_csv`.  Each row is parsed in the order the code
evaluates it: title, year (may raise, aborting the whole loop), genre,
watched, rating (may raise, aborting).  The `Movie` construction alone sits in
a `try`: a `ValueError` there (empty title) skips the row and the loop
continues.  The returned `Option String` is `some msg` when an uncaught
exception aborted the loop; movies added before the abort remain added. -/
def MovieLibrary.loadRows (lib : MovieLibrary) :
    List Row → MovieLibrary × Option String
  | [] => (lib, none)
  | r :: rest =>
    match parseYearCell r.yearCell with
    | .error e => (lib, some e)
    | .ok y =>
      match parseRatingCell r.ratingCell with
      | .error e => (lib, some e)
      | .ok rat =>
        match Movie.init (parseText r.titleCell) y (parseText r.genreCell)
            (parseWatchedCell r.watchedCell) rat with
        | .error _ => lib.loadRows rest
        | .ok m => (lib.add_movie m).loadRows rest

/-- `MovieLibrary.load_from_csv`: `none` stands for a nonexistent file, where
`pd.read_csv` raises `FileNotFoundError`, the handler prints an informational
message and returns with the library untouched. -/
def MovieLibrary.load_from_csv (lib : MovieLibrary) (file : Option (List Row)) :
    MovieLibrary × Option String :=
  match file with
  | none => (lib, none)
  | some rows => lib.loadRows rows

/-- How `df.to_csv` renders a string-slot value: NaN and the empty string both
produce an empty cell, other strings produce themselves. -/
def pyStrCell (p : PyStr) : TCell :=
  match p with
  | .nanV => .emptyC
  | .strV s => if s.isEmpty then .emptyC else .strC s

/-- One dict of `save_to_csv`'s `data` list, as the CSV row it becomes:
year as an integer cell, watched as a boolean cell, a None rating as an
empty cell and a present rating as a numeric cell. -/
def Movie.toRow (m : Movie) : Row :=
  { titleCell := some (pyStrCell m.title)
    yearCell := some (.intC m.year)
    genreCell := some (pyStrCell m.genre)
    watchedCell := some (.boolC m.watched)
    ratingCell := some (match m.rating with | none => .emptyC | some q => .ratC q) }

/-- `MovieLibrary.save_to_csv`: one row per movie of the main list, in
order, overwriting the file. -/
def MovieLibrary.save_to_csv (lib : MovieLibrary) : List Row :=
  lib.movies.map Movie.toRow

/-- A catalog mutation available to the presentation shell: `add_movie` or
`delete_movie_by_title`. -/
inductive LibOp where
  | add : Movie → LibOp
  | deleteByTitle : String → LibOp
deriving DecidableEq, Repr

/-- Run a sequence of add/delete operations; a raised `AttributeError` from
delete aborts the run. -/
def MovieLibrary.runOps (lib : MovieLibrary) :
    List LibOp → Except String MovieLibrary
  | [] => .ok lib
  | .add m :: rest => (lib.add_movie m).runOps rest
  | .deleteByTitle t :: rest =>
    match lib.delete_movie_by_title t with
    | .error e => .error e
    | .ok (lib2, _) => lib2.runOps rest

/-
  Theorems for the claims.
-/

/-- C1 (amended): assigning a rating outside `[0, 10]` through the rating
setter fails with the validation error, so the prior rating is unchanged —
but construction does not validate the rating: with a valid title the
constructor succeeds and stores an out-of-range rating as given. -/
theorem C1_rating_validation (m : Movie) (t : PyStr) (y : Int) (g : PyStr)
    (w : Bool) (r : ℚ) (hr : r < 0 ∨ 10 < r) (ht : t.falsy = false) :
    m.setRating (some r) = Except.error "Rating must be between 0 and 10." ∧
    Movie.init t y g w (some r) = Except.ok ⟨t, y, g, w, some r⟩ := by
  have hbad : ¬ ((0 : ℚ) ≤ r ∧ r ≤ 10) := by
    rintro ⟨h0, h10⟩
    rcases hr with h | h
    · exact absurd h0 (not_le.mpr h)
    · exact absurd h10 (not_le.mpr h)
  constructor
  · simp [Movie.setRating, hbad]
  · simp [Movie.init, Media.titleCheck, ht]

/-- C1 witness: at rating 15 the setter rejects and the constructor
accepts. -/
theorem C1_rating_validation_witness :
    (⟨PyStr.strV "A", 2000, PyStr.strV "G", false, none⟩ : Movie).setRating
        (some 15) = Except.error "Rating must be between 0 and 10." ∧
    Movie.init (PyStr.strV "A") 2000 (PyStr.strV "G") false (some 15) =
      Except.ok ⟨PyStr.strV "A", 2000, PyStr.strV "G", false, some 15⟩ :=
  C1_rating_validation ⟨PyStr.strV "A", 2000, PyStr.strV "G", false, none⟩
    (PyStr.strV "A") 2000 (PyStr.strV "G") false 15 (Or.inr (by norm_num))
    (by decide)

/-- C1 counterexample: the claim says an out-of-range rating is rejected at
construction, but `Movie.__init__` assigns `self.__rating` directly without
invoking the setter: constructing with rating 15 succeeds and stores 15,
which lies outside `[0, 10]`. -/
theorem C1_counterexample :
    Movie.init (PyStr.strV "Inception") 2010 (PyStr.strV "Sci-Fi") false
        (some 15) =
      Except.ok ⟨PyStr.strV "Inception", 2010, PyStr.strV "Sci-Fi", false,
        some 15⟩ ∧
    ¬ ((0 : ℚ) ≤ 15 ∧ (15 : ℚ) ≤ 10) := by
  exact ⟨rfl, by norm_num⟩

/-- C2 (amended): assigning an empty genre through the genre setter stores
the literal string "Unknown" and never fails — but the constructor assigns
`self.__genre` directly, so a genre supplied at construction is stored as
given, an empty genre included. -/
theorem C2_genre_empty (m : Movie) (v t g : PyStr) (y : Int) (w : Bool)
    (r : Option ℚ) (hv : v.falsy = true) (ht : t.falsy = false) :
    m.setGenre v = { m with genre := PyStr.strV "Unknown" } ∧
    Movie.init t y g w r = Except.ok ⟨t, y, g, w, r⟩ := by
  constructor
  · simp [Movie.setGenre, hv]
  · simp [Movie.init, Media.titleCheck, ht]

/-- C2 witness: the setter turns the empty genre of a concrete movie into
"Unknown", and constructing that movie stores its genre verbatim. -/
theorem C2_genre_empty_witness :
    (⟨PyStr.strV "A", 2000, PyStr.strV "G", false, none⟩ : Movie).setGenre
        (PyStr.strV "") =
      ⟨PyStr.strV "A", 2000, PyStr.strV "Unknown", false, none⟩ ∧
    Movie.init (PyStr.strV "A") 2000 (PyStr.strV "G") false none =
      Except.ok ⟨PyStr.strV "A", 2000, PyStr.strV "G", false, none⟩ :=
  C2_genre_empty ⟨PyStr.strV "A", 2000, PyStr.strV "G", false, none⟩
    (PyStr.strV "") (PyStr.strV "A") (PyStr.strV "G") 2000 false none
    (by decide) (by decide)

/-- C2 counterexample: the claim says an empty genre supplied at construction
is stored as "Unknown", but the constructor bypasses the genre setter:
construction with genre "" succeeds and stores "", not "Unknown". -/
theorem C2_counterexample :
    Movie.init (PyStr.strV "A") 2000 (PyStr.strV "") false none =
      Except.ok ⟨PyStr.strV "A", 2000, PyStr.strV "", false, none⟩ ∧
    PyStr.strV "" ≠ PyStr.strV "Unknown" := by
  exact ⟨rfl, by decide⟩

/-- C7: constructing a movie from a non-empty title string and any year
succeeds with title and year stored unchanged, while constructing from or
assigning the empty title fails with the validation error. -/
theorem C7_title_validation (t : String) (ht : t ≠ "") (y : Int) (g : PyStr)
    (w : Bool) (r : Option ℚ) (m : Movie) :
    Movie.init (PyStr.strV t) y g w r = Except.ok ⟨PyStr.strV t, y, g, w, r⟩ ∧
    Movie.init (PyStr.strV "") y g w r = Except.error "Title cannot be empty." ∧
    m.setTitle (PyStr.strV "") = Except.error "Title cannot be empty." := by
  refine ⟨?_, rfl, rfl⟩
  simp [Movie.init, Media.titleCheck, PyStr.falsy, String.isEmpty_iff, ht]

/-- C7 witness: title "Inception", year 2010. -/
theorem C7_title_validation_witness :
    Movie.init (PyStr.strV "Inception") 2010 (PyStr.strV "Sci-Fi") true
        (some 9) =
      Except.ok ⟨PyStr.strV "Inception", 2010, PyStr.strV "Sci-Fi", true,
        some 9⟩ ∧
    Movie.init (PyStr.strV "") 2010 (PyStr.strV "Sci-Fi") true (some 9) =
      Except.error "Title cannot be empty." ∧
    (⟨PyStr.strV "A", 2000, PyStr.strV "G", false, none⟩ : Movie).setTitle
        (PyStr.strV "") = Except.error "Title cannot be empty." :=
  C7_title_validation "Inception" (by decide) 2010 (PyStr.strV "Sci-Fi") true
    (some 9) ⟨PyStr.strV "A", 2000, PyStr.strV "G", false, none⟩

/-- Rows used to exhibit the Year-cell crash in `load_from_csv`. -/
def yearEmptyRow : Row :=
  { titleCell := some (.strC "Alien"), yearCell := some .emptyC,
    genreCell := some (.strC "Horror"), watchedCell := some (.boolC true),
    ratingCell := some (.ratC 8) }

/-- A row whose Year cell holds unparseable text. -/
def yearBadRow : Row :=
  { titleCell := some (.strC "Alien"), yearCell := some (.badC "eighty"),
    genreCell := some (.strC "Horror"), watchedCell := some (.boolC true),
    ratingCell := some (.ratC 8) }

/-- C6: the code comment says "default to 2000 if year is missing or
invalid", and the `.get` default does apply 2000 when the Year COLUMN is
absent — but for a row whose Year cell is empty or unparseable text,
`int(row.get("Year", 2000))` raises an uncaught `ValueError`: the load
aborts with no movie added, instead of defaulting that row's year to 2000. -/
theorem C6_year_cell_crash :
    MovieLibrary.init.load_from_csv (some [yearEmptyRow]) =
      (MovieLibrary.init,
       some "ValueError: cannot convert float NaN to integer") ∧
    MovieLibrary.init.load_from_csv (some [yearBadRow]) =
      (MovieLibrary.init,
       some "ValueError: invalid literal for int: eighty") ∧
    MovieLibrary.init.load_from_csv
        (some [{ yearEmptyRow with yearCell := none }]) =
      (⟨[⟨PyStr.strV "Alien", 2000, PyStr.strV "Horror", true, some 8⟩], []⟩,
       none) := by
  exact ⟨rfl, rfl, rfl⟩

/-- Filtering a list by a predicate and by its negation splits its length. -/
theorem length_filter_not_add (p : α → Bool) (l : List α) :
    (l.filter (fun a => !p a)).length + (l.filter p).length = l.length := by
  induction l with
  | nil => rfl
  | cons a l ih => cases hpa : p a <;> simp [List.filter_cons, hpa] <;> omega

/-- C5: with every stored title an actual string, `delete_movie_by_title`
succeeds, removes exactly the entries whose lowercased title equals the
lowercased argument (all of them, keeping the rest in order), rebuilds the
unwatched view, and returns the number removed; when nothing matches it
returns 0 and the main collection is unchanged. -/
theorem C5_delete_by_title (lib : MovieLibrary) (t : String)
    (h : lib.movies.all (fun m => !(m.title == PyStr.nanV)) = true) :
    ∃ lib2 n, lib.delete_movie_by_title t = Except.ok (lib2, n) ∧
      lib2.movies = lib.movies.filter (fun m => !(titleMatches t m)) ∧
      lib2.unwatched_movies = buildUnwatchedList lib2.movies ∧
      n = (lib.movies.filter (titleMatches t)).length ∧
      ((∀ m ∈ lib.movies, titleMatches t m = false) →
        lib2.movies = lib.movies ∧ n = 0) := by
  have hsplit := length_filter_not_add (titleMatches t) lib.movies
  refine ⟨⟨lib.movies.filter (keepsTitle t),
      buildUnwatchedList (lib.movies.filter (keepsTitle t))⟩,
    lib.movies.length - (lib.movies.filter (keepsTitle t)).length,
    ?_, rfl, rfl, ?_, ?_⟩
  · unfold MovieLibrary.delete_movie_by_title
    rw [if_pos h]
  · have hk : (fun a => !titleMatches t a) = keepsTitle t := rfl
    rw [hk] at hsplit
    omega
  · intro hnone
    have hall : lib.movies.filter (keepsTitle t) = lib.movies := by
      rw [List.filter_eq_self]
      intro m hm
      simp [keepsTitle, hnone m hm]
    refine ⟨hall, ?_⟩
    rw [hall]
    omega

/-- C5 witness: deleting "inception" from a two-movie library removes the
movie titled "Inception" and reports count 1. -/
theorem C5_delete_by_title_witness :
    ∃ lib2 n,
      (⟨[⟨PyStr.strV "Inception", 2010, PyStr.strV "Sci-Fi", true, some 9⟩,
         ⟨PyStr.strV "Alien", 1979, PyStr.strV "Horror", false, none⟩],
        [⟨PyStr.strV "Alien", 1979, PyStr.strV "Horror", false, none⟩]⟩ :
          MovieLibrary).delete_movie_by_title "inception" =
        Except.ok (lib2, n) ∧
      lib2.movies =
        [⟨PyStr.strV "Inception", 2010, PyStr.strV "Sci-Fi", true, some 9⟩,
         ⟨PyStr.strV "Alien", 1979, PyStr.strV "Horror", false, none⟩].filter
          (fun m => !(titleMatches "inception" m)) ∧
      lib2.unwatched_movies = buildUnwatchedList lib2.movies ∧
      n = ([⟨PyStr.strV "Inception", 2010, PyStr.strV "Sci-Fi", true, some 9⟩,
            ⟨PyStr.strV "Alien", 1979, PyStr.strV "Horror", false, none⟩].filter
          (titleMatches "inception")).length ∧
      ((∀ m ∈ [⟨PyStr.strV "Inception", 2010, PyStr.strV "Sci-Fi", true,
            some 9⟩,
          ⟨PyStr.strV "Alien", 1979, PyStr.strV "Horror", false, none⟩],
          titleMatches "inception" m = false) →
        lib2.movies =
          [⟨PyStr.strV "Inception", 2010, PyStr.strV "Sci-Fi", true, some 9⟩,
           ⟨PyStr.strV "Alien", 1979, PyStr.strV "Horror", false, none⟩] ∧
        n = 0) :=
  C5_delete_by_title
    ⟨[⟨PyStr.strV "Inception", 2010, PyStr.strV "Sci-Fi", true, some 9⟩,
      ⟨PyStr.strV "Alien", 1979, PyStr.strV "Horror", false, none⟩],
     [⟨PyStr.strV "Alien", 1979, PyStr.strV "Horror", false, none⟩]⟩
    "inception" (by decide)

/-- A successful `delete_movie_by_title` leaves the unwatched list equal to
the rebuilt filter of the new main list. -/
theorem delete_ok_unwatched {lib : MovieLibrary} {t : String}
    {lib2 : MovieLibrary} {n : Nat}
    (h : lib.delete_movie_by_title t = Except.ok (lib2, n)) :
    lib2.unwatched_movies = buildUnwatchedList lib2.movies := by
  unfold MovieLibrary.delete_movie_by_title at h
  split at h
  · rw [Except.ok.injEq, Prod.mk.injEq] at h
    rw [← h.1]
  · exact absurd h (by simp)

/-- C3: running any sequence of `add_movie` / `delete_movie_by_title`
operations from a state whose unwatched view is consistent keeps it
consistent: afterwards the unwatched list is exactly the in-order
subsequence of the main list whose watched flag is false. -/
theorem C3_unwatched_consistent (lib lib2 : MovieLibrary) (ops : List LibOp)
    (hinv : lib.unwatched_movies = buildUnwatchedList lib.movies)
    (h : lib.runOps ops = Except.ok lib2) :
    lib2.unwatched_movies = lib2.movies.filter (fun m => !m.watched) := by
  induction ops generalizing lib with
  | nil =>
    simp only [MovieLibrary.runOps, Except.ok.injEq] at h
    rw [← h]
    exact hinv
  | cons op rest ih =>
    cases op with
    | add m => exact ih (lib.add_movie m) rfl h
    | deleteByTitle t =>
      rw [MovieLibrary.runOps] at h
      cases hd : lib.delete_movie_by_title t with
      | error e => rw [hd] at h; exact absurd h (by simp)
      | ok p =>
        obtain ⟨l2, n⟩ := p
        rw [hd] at h
        exact ih l2 (delete_ok_unwatched hd) h

/-- C3 witness: add a watched and two unwatched movies, delete the watched
one; the resulting state's unwatched view is the filter of its main list. -/
theorem C3_unwatched_consistent_witness :
    (⟨[⟨PyStr.strV "Alien", 1979, PyStr.strV "Horror", false, none⟩,
       ⟨PyStr.strV "Heat", 1995, PyStr.strV "Crime", false, some 8⟩],
      [⟨PyStr.strV "Alien", 1979, PyStr.strV "Horror", false, none⟩,
       ⟨PyStr.strV "Heat", 1995, PyStr.strV "Crime", false, some 8⟩]⟩ :
        MovieLibrary).unwatched_movies =
      (⟨[⟨PyStr.strV "Alien", 1979, PyStr.strV "Horror", false, none⟩,
         ⟨PyStr.strV "Heat", 1995, PyStr.strV "Crime", false, some 8⟩],
        [⟨PyStr.strV "Alien", 1979, PyStr.strV "Horror", false, none⟩,
         ⟨PyStr.strV "Heat", 1995, PyStr.strV "Crime", false, some 8⟩]⟩ :
          MovieLibrary).movies.filter (fun m => !m.watched) :=
  C3_unwatched_consistent MovieLibrary.init
    ⟨[⟨PyStr.strV "Alien", 1979, PyStr.strV "Horror", false, none⟩,
      ⟨PyStr.strV "Heat", 1995, PyStr.strV "Crime", false, some 8⟩],
     [⟨PyStr.strV "Alien", 1979, PyStr.strV "Horror", false, none⟩,
      ⟨PyStr.strV "Heat", 1995, PyStr.strV "Crime", false, some 8⟩]⟩
    [.add ⟨PyStr.strV "Inception", 2010, PyStr.strV "Sci-Fi", true, some 9⟩,
     .add ⟨PyStr.strV "Alien", 1979, PyStr.strV "Horror", false, none⟩,
     .add ⟨PyStr.strV "Heat", 1995, PyStr.strV "Crime", false, some 8⟩,
     .deleteByTitle "inception"]
    (by decide) (by decide)

/-- C9: `ensure_valid_ratings` keeps the collection's length and order; the
entry at each position keeps its title, year, genre and watched flag, its
rating is reset to absent exactly when it was present and out of `[0, 10]`,
and is untouched (in-range or already absent) otherwise. -/
theorem C9_ensure_valid_ratings (lib : MovieLibrary) (i : Nat) (m : Movie)
    (h : lib.movies[i]? = some m) :
    lib.ensure_valid_ratings.movies.length = lib.movies.length ∧
    lib.ensure_valid_ratings.movies[i]? =
      some ⟨m.title, m.year, m.genre, m.watched,
        if badRating m.rating then none else m.rating⟩ := by
  constructor
  · simp [MovieLibrary.ensure_valid_ratings]
  · rw [MovieLibrary.ensure_valid_ratings]
    simp only [List.getElem?_map, h, Option.map_some']
    cases hb : badRating m.rating <;> simp [hb]

/-- C9 witness: a rating of 15 injected by direct construction is reset to
absent while an in-range rating at the next position is untouched. -/
theorem C9_ensure_valid_ratings_witness :
    (⟨[⟨PyStr.strV "A", 2000, PyStr.strV "G", false, some 15⟩,
       ⟨PyStr.strV "Heat", 1995, PyStr.strV "Crime", false, some 8⟩], []⟩ :
        MovieLibrary).ensure_valid_ratings.movies.length =
      (⟨[⟨PyStr.strV "A", 2000, PyStr.strV "G", false, some 15⟩,
         ⟨PyStr.strV "Heat", 1995, PyStr.strV "Crime", false, some 8⟩], []⟩ :
          MovieLibrary).movies.length ∧
    (⟨[⟨PyStr.strV "A", 2000, PyStr.strV "G", false, some 15⟩,
       ⟨PyStr.strV "Heat", 1995, PyStr.strV "Crime", false, some 8⟩], []⟩ :
        MovieLibrary).ensure_valid_ratings.movies[0]? =
      some ⟨PyStr.strV "A", 2000, PyStr.strV "G", false,
        if badRating (some 15) then none else some 15⟩ :=
  C9_ensure_valid_ratings
    ⟨[⟨PyStr.strV "A", 2000, PyStr.strV "G", false, some 15⟩,
      ⟨PyStr.strV "Heat", 1995, PyStr.strV "Crime", false, some 8⟩], []⟩
    0 ⟨PyStr.strV "A", 2000, PyStr.strV "G", false, some 15⟩ (by decide)

/-- A row with no Title column (so `row.get("Title", "")` yields the empty
string), used to exercise the skip-on-validation-failure path. -/
def titleAbsentRow : Row :=
  { titleCell := none, yearCell := some (.intC 1999),
    genreCell := some (.strC "Drama"), watchedCell := some (.boolC false),
    ratingCell := some .emptyC }

/-- A row whose Rating cell holds unparseable text. -/
def ratingBadRow : Row :=
  { titleCell := some (.strC "Alien"), yearCell := some (.intC 1979),
    genreCell := some (.strC "Horror"), watchedCell := some (.boolC false),
    ratingCell := some (.badC "N/A") }

/-- A fully well-formed row. -/
def goodRow : Row :=
  { titleCell := some (.strC "Heat"), yearCell := some (.intC 1995),
    genreCell := some (.strC "Crime"), watchedCell := some (.boolC false),
    ratingCell := some (.ratC 8) }

/-- C8 (amended): a nonexistent file leaves the library untouched with no
exception, and a row whose parsed title is the empty string is skipped by the
per-row `try` while loading continues with the remaining rows. -/
theorem C8_load_nonfatal_paths (lib : MovieLibrary) (r : Row)
    (rest : List Row) (y : Int) (q : Option ℚ)
    (ht : parseText r.titleCell = PyStr.strV "")
    (hy : parseYearCell r.yearCell = Except.ok y)
    (hq : parseRatingCell r.ratingCell = Except.ok q) :
    lib.load_from_csv none = (lib, none) ∧
    lib.loadRows (r :: rest) = lib.loadRows rest := by
  refine ⟨rfl, ?_⟩
  rw [MovieLibrary.loadRows, hy, hq, ht]
  rfl

/-- C8 witness: a row lacking the Title column is skipped and the library is
untouched by a missing file. -/
theorem C8_load_nonfatal_paths_witness :
    MovieLibrary.init.load_from_csv none = (MovieLibrary.init, none) ∧
    MovieLibrary.init.loadRows (titleAbsentRow :: [goodRow]) =
      MovieLibrary.init.loadRows [goodRow] :=
  C8_load_nonfatal_paths MovieLibrary.init titleAbsentRow [goodRow] 1999 none
    (by decide) (by decide) (by decide)

/-- C8 counterexample: not every failure during Load is non-fatal.  A row
whose Rating cell holds unparseable text makes `float(rating)` raise an
uncaught `ValueError`: the load aborts, and the well-formed row after it is
never loaded. -/
theorem C8_counterexample :
    MovieLibrary.init.load_from_csv (some [ratingBadRow, goodRow]) =
      (MovieLibrary.init,
       some "ValueError: could not convert string to float: N/A") := by
  rfl

/-- Loading rows into any library appends the same movies, with the same
abort message, as loading them into the empty library. -/
theorem loadRows_movies_append (rows : List Row) : ∀ lib : MovieLibrary,
    (lib.loadRows rows).1.movies =
      lib.movies ++ (MovieLibrary.init.loadRows rows).1.movies ∧
    (lib.loadRows rows).2 = (MovieLibrary.init.loadRows rows).2 := by
  induction rows with
  | nil => intro lib; simp [MovieLibrary.loadRows, MovieLibrary.init]
  | cons r rest ih =>
    intro lib
    cases hy : parseYearCell r.yearCell with
    | error e => simp [MovieLibrary.loadRows, hy, MovieLibrary.init]
    | ok y =>
      cases hq : parseRatingCell r.ratingCell with
      | error e => simp [MovieLibrary.loadRows, hy, hq, MovieLibrary.init]
      | ok q =>
        cases hm : Movie.init (parseText r.titleCell) y (parseText r.genreCell)
            (parseWatchedCell r.watchedCell) q with
        | error e =>
          simp only [MovieLibrary.loadRows, hy, hq, hm]
          exact ih lib
        | ok m =>
          simp only [MovieLibrary.loadRows, hy, hq, hm]
          have h1 := ih (lib.add_movie m)
          have h2 := ih (MovieLibrary.init.add_movie m)
          refine ⟨?_, ?_⟩
          · rw [h1.1, h2.1]
            simp [MovieLibrary.add_movie, MovieLibrary.init]
          · rw [h1.2, h2.2]

/-- C10: `load_from_csv` appends: every movie already in the library keeps
its position, the loaded movies follow them (identical to what loading into
an empty library yields, abort message included), so loading the same file
twice duplicates the loaded list. -/
theorem C10_load_appends (lib : MovieLibrary) (file : Option (List Row)) :
    (lib.load_from_csv file).1.movies =
      lib.movies ++ (MovieLibrary.init.load_from_csv file).1.movies ∧
    (lib.load_from_csv file).2 =
      (MovieLibrary.init.load_from_csv file).2 ∧
    ((MovieLibrary.init.load_from_csv file).1.load_from_csv file).1.movies =
      (MovieLibrary.init.load_from_csv file).1.movies ++
        (MovieLibrary.init.load_from_csv file).1.movies := by
  cases file with
  | none => simp [MovieLibrary.load_from_csv, MovieLibrary.init]
  | some rows =>
    exact ⟨(loadRows_movies_append rows lib).1,
      (loadRows_movies_append rows lib).2,
      (loadRows_movies_append rows (MovieLibrary.init.loadRows rows).1).1⟩

/-- A value that is not the empty string is not falsy (NaN is truthy). -/
theorem falsy_eq_false_of_ne (p : PyStr) (h : p ≠ PyStr.strV "") :
    p.falsy = false := by
  cases p with
  | nanV => rfl
  | strV s =>
    simp only [PyStr.falsy]
    rw [Bool.eq_false_iff]
    intro hs
    exact h (by rw [(String.isEmpty_iff s).mp hs])

/-- Writing a string-slot value to a cell and reading the cell back is the
identity for every value except the empty string (which comes back as NaN). -/
theorem parseText_pyStrCell (p : PyStr) (h : p ≠ PyStr.strV "") :
    parseText (some (pyStrCell p)) = p := by
  cases p with
  | nanV => rfl
  | strV s =>
    have hs : s.isEmpty = false := by
      rw [Bool.eq_false_iff]
      intro hs
      exact h (by rw [(String.isEmpty_iff s).mp hs])
    simp [pyStrCell, parseText, hs]

/-- Loading the saved rows of a movie list onto a consistent library appends
exactly those movies, provided no title or genre is the empty string. -/
theorem loadRows_save_exact (ms : List Movie) : ∀ lib : MovieLibrary,
    lib.unwatched_movies = buildUnwatchedList lib.movies →
    (∀ m ∈ ms, m.title ≠ PyStr.strV "" ∧ m.genre ≠ PyStr.strV "") →
    lib.loadRows (ms.map Movie.toRow) =
      (⟨lib.movies ++ ms, buildUnwatchedList (lib.movies ++ ms)⟩, none) := by
  induction ms with
  | nil =>
    intro lib hinv _
    cases lib with
    | mk mv uw =>
      simp only [List.map_nil, MovieLibrary.loadRows, List.append_nil]
      simp only at hinv
      rw [hinv]
  | cons m ms ih =>
    intro lib hinv hok
    have hm := hok m (List.mem_cons_self m ms)
    have hrest : ∀ x ∈ ms, x.title ≠ PyStr.strV "" ∧ x.genre ≠ PyStr.strV "" :=
      fun x hx => hok x (List.mem_cons_of_mem m hx)
    have hyear : parseYearCell (Movie.toRow m).yearCell = Except.ok m.year := rfl
    have hrat : parseRatingCell (Movie.toRow m).ratingCell =
        Except.ok m.rating := by
      cases hr : m.rating <;> simp [Movie.toRow, parseRatingCell, hr]
    have htitle : parseText (Movie.toRow m).titleCell = m.title :=
      parseText_pyStrCell m.title hm.1
    have hgenre : parseText (Movie.toRow m).genreCell = m.genre :=
      parseText_pyStrCell m.genre hm.2
    have hwatched : parseWatchedCell (Movie.toRow m).watchedCell = m.watched :=
      rfl
    have hmk : Movie.init m.title m.year m.genre m.watched m.rating =
        Except.ok m := by
      unfold Movie.init Media.titleCheck
      rw [falsy_eq_false_of_ne m.title hm.1]
      rfl
    rw [List.map_cons]
    simp only [MovieLibrary.loadRows, hyear, hrat, htitle, hgenre, hwatched,
      hmk]
    have := ih (lib.add_movie m) rfl hrest
    rw [this]
    simp [MovieLibrary.add_movie]

/-- C4 (amended): saving a catalog and loading the file into an empty catalog
reproduces every entry — title, year, genre, watched and rating equal, in the
same order — provided no movie's title or genre is the empty string.  (An
empty genre is written as an empty cell and read back as NaN, so it is not
reproduced; see the counterexample.) -/
theorem C4_roundtrip (lib : MovieLibrary)
    (h : ∀ m ∈ lib.movies, m.title ≠ PyStr.strV "" ∧ m.genre ≠ PyStr.strV "") :
    MovieLibrary.init.load_from_csv (some lib.save_to_csv) =
      (⟨lib.movies, buildUnwatchedList lib.movies⟩, none) := by
  have := loadRows_save_exact lib.movies MovieLibrary.init rfl h
  simpa [MovieLibrary.save_to_csv, MovieLibrary.load_from_csv,
    MovieLibrary.init] using this

/-- C4 witness: a two-movie catalog (one watched and rated, one unwatched and
unrated) survives the save/load round trip unchanged. -/
theorem C4_roundtrip_witness :
    MovieLibrary.init.load_from_csv
        (some (⟨[⟨PyStr.strV "Inception", 2010, PyStr.strV "Sci-Fi", true,
            some (87/10)⟩,
          ⟨PyStr.strV "Alien", 1979, PyStr.strV "Horror", false, none⟩],
         [⟨PyStr.strV "Alien", 1979, PyStr.strV "Horror", false, none⟩]⟩ :
            MovieLibrary).save_to_csv) =
      (⟨[⟨PyStr.strV "Inception", 2010, PyStr.strV "Sci-Fi", true,
          some (87/10)⟩,
         ⟨PyStr.strV "Alien", 1979, PyStr.strV "Horror", false, none⟩],
        buildUnwatchedList
          [⟨PyStr.strV "Inception", 2010, PyStr.strV "Sci-Fi", true,
            some (87/10)⟩,
           ⟨PyStr.strV "Alien", 1979, PyStr.strV "Horror", false, none⟩]⟩,
       none) :=
  C4_roundtrip
    ⟨[⟨PyStr.strV "Inception", 2010, PyStr.strV "Sci-Fi", true, some (87/10)⟩,
      ⟨PyStr.strV "Alien", 1979, PyStr.strV "Horror", false, none⟩],
     [⟨PyStr.strV "Alien", 1979, PyStr.strV "Horror", false, none⟩]⟩
    (by decide)

/-- C4 counterexample: a movie whose genre is the empty string (constructible,
since the constructor bypasses the genre setter) does not round-trip: its
genre is written as an empty cell and read back as NaN, so the loaded genres
differ from the saved ones. -/
theorem C4_counterexample :
    (MovieLibrary.init.load_from_csv
        (some (MovieLibrary.init.add_movie
          ⟨PyStr.strV "A", 2000, PyStr.strV "", false, none⟩).save_to_csv)).1.movies.map
        Movie.genre ≠
      (MovieLibrary.init.add_movie
        ⟨PyStr.strV "A", 2000, PyStr.strV "", false, none⟩).movies.map
        Movie.genre := by
  decide

end MovieTracker
